import Mathlib

/-!
A shallow embedding of `server.py`, a minimal single-connection HTTP server.

The Python program reads raw bytes from an accepted connection, decodes them
as UTF-8 (with replacement), parses a `BrowserRequest`, routes the request
path through a fixed alias table to a file under the document root, builds a
response header from a fixed status table, sends header+body, and closes the
connection.

Modelling conventions:
* Raw connection data enters the model already decoded to a `String`
  (`data.decode("utf8", "replace")` never fails; on the ASCII inputs used in
  every theorem below the decoding is the identity).
* The filesystem is a partial map `FS : String → Option String` from a path
  to the text content obtained by `open(path).read()`; `none` models every
  way `open`/`read` can raise (missing file, directory, unreadable).
* Python string methods are re-implemented over `List Char` by structural
  recursion so that the kernel can evaluate them (`str.split(sep)` keeps
  empty pieces; `str.strip()` removes ASCII/latin whitespace at both ends;
  `str.capitalize()` upper-cases the head and lower-cases the rest).
* Exceptions become explicit error values; an uncaught exception at a given
  program point becomes an error constructor naming that point.
-/

deriving instance DecidableEq for Except

namespace Server

/-- Characters removed by Python `str.strip()` (ASCII whitespace:
space, tab, newline, carriage return, vertical tab, form feed). -/
def isPySpace (c : Char) : Bool :=
  c == ' ' || c == '\t' || c == '\n' || c == '\r' ||
  c == Char.ofNat 11 || c == Char.ofNat 12

/-- Python `str.strip()`: drop whitespace from both ends. -/
def pyStrip (s : String) : String :=
  String.mk (((s.toList.dropWhile isPySpace).reverse.dropWhile isPySpace).reverse)

/-- Python `str.split(sep)` for a one-character separator: split at every
occurrence, keeping empty pieces (`"a  b".split(" ") == ["a", "", "b"]`). -/
def split1 (sep : Char) : List Char → List (List Char)
  | [] => [[]]
  | c :: rest =>
    if c == sep then [] :: split1 sep rest
    else
      match split1 sep rest with
      | [] => [[c]]
      | h :: t => (c :: h) :: t

/-- Python `str.split(sep)` for a two-character separator such as `": "`:
scan left to right, cutting at each occurrence of the pair. -/
def split2 (a b : Char) : List Char → List (List Char)
  | [] => [[]]
  | [c] => [[c]]
  | c1 :: c2 :: rest =>
    if c1 == a && c2 == b then [] :: split2 a b rest
    else
      match split2 a b (c2 :: rest) with
      | [] => [[c1]]
      | h :: t => (c1 :: h) :: t

/-- Split at every character satisfying `p`, keeping empty pieces. -/
def splitP (p : Char → Bool) : List Char → List (List Char)
  | [] => [[]]
  | c :: rest =>
    if p c then [] :: splitP p rest
    else
      match splitP p rest with
      | [] => [[c]]
      | h :: t => (c :: h) :: t

/-- Python `s.split(sep)` for a one-character separator, on `String`. -/
def pySplitChar (sep : Char) (s : String) : List String :=
  (split1 sep s.toList).map String.mk

/-- Python `s.split(": ")`, the header-line separator, on `String`. -/
def pySplitColonSpace (s : String) : List String :=
  (split2 ':' ' ' s.toList).map String.mk

/-- The whitespace-separated tokens of a line (Python `s.split()` with no
argument): maximal runs of non-whitespace characters. Used only to state
the spec's "whitespace-separated tokens" reading of the request line. -/
def wsTokens (s : String) : List String :=
  ((splitP isPySpace s.toList).map String.mk).filter (fun t => t ≠ "")

/-- Python `str.capitalize()`: first character upper-cased, the rest
lower-cased. -/
def pyCapitalize (s : String) : String :=
  match s.toList with
  | [] => ""
  | c :: rest => String.mk (c.toUpper :: rest.map Char.toLower)

/-- Python `sep.join(parts)` (`str.join`). -/
def joinWith (sep : String) : List String → String
  | [] => ""
  | [s] => s
  | s :: rest => s ++ sep ++ joinWith sep rest

/-- Lookup in a Python dict built by insertion from an association list:
a later binding of the same key overwrites an earlier one, so the lookup
returns the value of the LAST matching pair. -/
def dictLookup : List (String × String) → String → Option String
  | [], _ => none
  | (k, v) :: rest, key =>
    match dictLookup rest key with
    | some v2 => some v2
    | none => if k == key then some v else none

/-- The structured request built by `BrowserRequest.__init__`.
`info` keeps the header pairs in parse order; `dictLookup` gives the
Python-dict view of them. -/
structure BrowserRequest where
  method : String
  path : String
  http_version : String
  info : List (String × String)
deriving Repr, DecidableEq

/-- The ways `BrowserRequest.__init__` can raise, aborting the connection. -/
inductive ParseErr where
  /-- raised when `lines.pop(0)` runs on an empty list (IndexError). -/
  | emptyRequest
  /-- unpacking `lines.pop(0).split(" ")` into three names raises
  ValueError unless the split has exactly three elements. -/
  | badRequestLine
  /-- unpacking `line.split(": ")` into two names inside the dict
  comprehension raises ValueError unless the split has exactly two
  elements. -/
  | badHeaderLine
deriving Repr, DecidableEq

/-- The line preprocessing at the top of `BrowserRequest.__init__`:
split the decoded data on `"\n"`, strip each line, drop empty lines. -/
def pyLines (s : String) : List String :=
  ((pySplitChar '\n' s).map pyStrip).filter (fun l => l ≠ "")

/-- One header line: `line.split(": ")` unpacked into exactly two parts. -/
def parseHeaderLine (line : String) : Option (String × String) :=
  match pySplitColonSpace line with
  | [k, v] => some (k, v)
  | _ => none

/-- Parsing as in `BrowserRequest.__init__`: the first non-empty line must split on the
single space character into exactly three parts (method, path,
http_version); every remaining line must split on `": "` into exactly two
parts, collected into the `info` dict. -/
def parseRequest (s : String) : Except ParseErr BrowserRequest :=
  match pyLines s with
  | [] => .error .emptyRequest
  | first :: rest =>
    match pySplitChar ' ' first with
    | [m, p, v] =>
      match rest.mapM parseHeaderLine with
      | some kvs => .ok ⟨m, p, v, kvs⟩
      | none => .error .badHeaderLine
    | _ => .error .badRequestLine

/-- Errors surfaced by attribute access on a `BrowserRequest`. -/
inductive AttrErr where
  /-- the dict lookup `self.info[...]` raises KeyError on a missing key;
  the surrounding `except IndexError` clause does NOT catch it. -/
  | keyError (key : String)
  /-- the `raise AttributeError(name)` in `__getattr__` — reachable only
  from an IndexError, which the dict lookup never raises. -/
  | attributeError (name : String)
deriving Repr, DecidableEq

/-- The header name `__getattr__` looks up for an attribute `name`:
`"-".join([n.capitalize() for n in name.split("_")])`. -/
def normalizeAttr (name : String) : String :=
  joinWith "-" ((pySplitChar '_' name).map pyCapitalize)

/-- Attribute access as in `BrowserRequest.__getattr__`: normalize the attribute name and index
`self.info`. A missing key raises KeyError, because the `except
IndexError` guard never matches a dict KeyError — the AttributeError
branch is dead code. -/
def getattrBR (req : BrowserRequest) (name : String) : Except AttrErr String :=
  match dictLookup req.info (normalizeAttr name) with
  | some v => .ok v
  | none => .error (.keyError (normalizeAttr name))

/-! ## Filesystem and router -/

/-- The filesystem seen through `open(path).read()`: `some content` when the
path names a readable text file, `none` when `open`/`read` raises (missing
file, directory, permission error). -/
def FS : Type := String → Option String

/-- Python `s.startswith(pre)` as a kernel-reducible check. -/
def pyStartsWith (pre s : String) : Bool :=
  pre.toList.isPrefixOf s.toList

/-- Python `s.endswith(suf)` as a kernel-reducible check. -/
def pyEndsWith (suf s : String) : Bool :=
  suf.toList.reverse.isPrefixOf s.toList.reverse

/-- Path joining as in `os.path.join(a, b)`: `b` wins when absolute; otherwise concatenate,
inserting `/` unless `a` is empty or already ends in the separator. -/
def pathJoin (a b : String) : String :=
  if pyStartsWith "/" b then b
  else if a == "" || pyEndsWith "/" a then a ++ b
  else a ++ "/" ++ b

/-- The alias table `router_dict` in `WebServer.router`. -/
def routerDict : List (String × String) :=
  [("/", "index.html"), ("/index.html", "index.html"), ("/index", "index.html")]

/-- Routing as in `WebServer.router`: a path found in the alias table is served from the
mapped file under the document root with status 200; any other path is
served from `404.html` under the root with status 404. `none` models the
uncaught IOError when the file to be read is unavailable. -/
def router (fs : FS) (homedir path : String) : Option (String × Nat) :=
  match List.lookup path routerDict with
  | some target => (fs (pathJoin homedir target)).map (fun c => (c, 200))
  | none => (fs (pathJoin homedir "404.html")).map (fun c => (c, 404))

/-! ## Response builder -/

/-- The fixed status-phrase table `WebServer.STATUSES`. -/
def STATUSES : List (Nat × String) := [(200, "Ok"), (404, "File not found")]

/-- Header building as in `WebServer.get_header`: `"\n".join([...])` over the status line, the
fixed Content-Type line, and `"Server: MyServer" "\n\n"` (adjacent Python
string literals concatenate). `none` models the uncaught KeyError when the
status code is absent from `STATUSES`. -/
def get_header (status_code : Nat) : Option String :=
  (List.lookup status_code STATUSES).map (fun reason =>
    joinWith "\n"
      [ "HTTP/1.1 " ++ toString status_code ++ " " ++ reason,
        "Content-Type: text/html;charset=UTF-8",
        "Server: MyServer" ++ "\n\n" ])

/-- The bytes passed to `respond` in `new_client_request`:
`(header + body).encode()`. -/
def serializeResponse (status_code : Nat) (body : String) : Option String :=
  (get_header status_code).map (fun hdr => hdr ++ body)

/-! ## Socket lifecycle (`LocaleSocket`) -/

/-- The observable state of a `LocaleSocket`: whether `_socket` and
`_connection` are set (`True`) or `None` (`False`). -/
structure SockSt where
  socketOpen : Bool
  connOpen : Bool
deriving Repr, DecidableEq

/-- Closing as in `LocaleSocket.close`: asserts `_socket is not None`, closes the
connection when one is set, closes the socket, and resets both to `None`.
`none` models the assertion failing. -/
def closeSock (st : SockSt) : Option SockSt :=
  if st.socketOpen then some ⟨false, false⟩ else none

/-- Outcome of `LocaleSocket.open` with the bind success injected. -/
inductive OpenResult where
  /-- bind succeeded; the socket is open. -/
  | ok (st : SockSt)
  /-- bind raised; `close()` ran, then the exception was re-raised.
  `st` is the state left behind for the caller. -/
  | bindError (st : SockSt)
  /-- an `assert` in `open`/`close` failed. -/
  | assertFail
deriving Repr, DecidableEq

/-- Opening as in `LocaleSocket.open`: asserts `_socket is None`, creates the socket,
then tries `bind`; on failure it calls `self.close()` and re-raises. -/
def openSock (bindOk : Bool) (st : SockSt) : OpenResult :=
  if st.socketOpen then .assertFail
  else
    let st1 : SockSt := ⟨true, st.connOpen⟩
    if bindOk then .ok st1
    else
      match closeSock st1 with
      | some st2 => .bindError st2
      | none => .assertFail

/-- Outcome of `LocaleSocket.respond` with the send success injected. -/
inductive RespondResult where
  /-- send succeeded and `self._connection.close()` ran. -/
  | sent (st : SockSt)
  /-- the `send` raised; the exception propagates before the `close()` line,
  leaving the state as `st`. -/
  | sendError (st : SockSt)
  /-- the field `self._connection` was `None`, so `None.send(...)` raises. -/
  | noConnError
  /-- the `assert _socket is not None` failed. -/
  | assertFail
deriving Repr, DecidableEq

/-- Responding as in `LocaleSocket.respond`: assert the socket is open, send the data on the
connection, then close the connection. There is no try/finally: when the
send raises, the `close()` on the next line is never reached. -/
def respond (sendOk : Bool) (st : SockSt) : RespondResult :=
  if st.socketOpen then
    if st.connOpen then
      if sendOk then .sent ⟨true, false⟩
      else .sendError st
    else .noConnError
  else .assertFail

/-! ## Connection handling and the server loop -/

/-- An exception escaping `WebServer.new_client_request`. -/
inductive HandleErr where
  /-- ValueError/IndexError raised inside `BrowserRequest(data)`. -/
  | parse (e : ParseErr)
  /-- IOError raised by `open()` inside `router`. -/
  | fileNotFound
  /-- KeyError raised by `STATUSES[status_code]` in `get_header`. -/
  | statusKey (code : Nat)
  /-- exception raised by the `cli_request.user_agent` access in the
  logging call, after the response was already sent. -/
  | attr (e : AttrErr)
deriving Repr, DecidableEq

/-- What one call to `new_client_request` did: completed, raised before any
bytes were sent, or raised after the response had been sent and the
connection closed. -/
inductive HandleResult where
  | ok (sent : String)
  | failBeforeSend (e : HandleErr)
  | failAfterSend (sent : String) (e : HandleErr)
deriving Repr, DecidableEq

/-- Handling as in `WebServer.new_client_request`, on the decoded bytes of one accepted
connection, with `recv` and `send` assumed to succeed at the transport
level: parse, route, build the header, respond, then log — the logging
f-string evaluates `cli_request.user_agent` via `__getattr__`. -/
def new_client_request (fs : FS) (homedir raw : String) : HandleResult :=
  match parseRequest raw with
  | .error e => .failBeforeSend (.parse e)
  | .ok req =>
    match router fs homedir req.path with
    | none => .failBeforeSend .fileNotFound
    | some (body, status) =>
      match get_header status with
      | none => .failBeforeSend (.statusKey status)
      | some hdr =>
        match getattrBR req "user_agent" with
        | .ok _ => .ok (hdr ++ body)
        | .error e => .failAfterSend (hdr ++ body) (.attr e)

/-- The `while True: self.new_client_request()` loop in `WebServer.start`,
run on a finite prefix of incoming connections. Returns the responses sent,
in order, and the first uncaught exception: the loop has no handler, so an
exception from any iteration terminates it and later connections are never
accepted. -/
def runServer (fs : FS) (homedir : String) : List String → List String × Option HandleErr
  | [] => ([], none)
  | c :: rest =>
    match new_client_request fs homedir c with
    | .ok sent =>
      let r := runServer fs homedir rest
      (sent :: r.1, r.2)
    | .failBeforeSend e => ([], some e)
    | .failAfterSend sent e => ([sent], some e)

/-! ## Concrete filesystems used to instantiate the theorems -/

/-- A document root `/html` holding an `index.html` and a `404.html`. -/
def fsMain : FS := fun p =>
  if p = "/html/index.html" then some "<h1>Hi</h1>"
  else if p = "/html/404.html" then some "nf"
  else none

/-- A document root `/root` where `/root/docs` is a directory (so `open`
on it raises: `none`) containing an `index.html`, and a `404.html` exists
at the root. -/
def fsDocs : FS := fun p =>
  if p = "/root/docs/index.html" then some "ok"
  else if p = "/root/404.html" then some "nf"
  else none

end Server

namespace Server

/-- The header name `__getattr__` computes for the `user_agent` attribute
used by the logging line. -/
theorem normalizeAttr_user_agent : normalizeAttr "user_agent" = "User-Agent" := by
  decide

/-- C1: for every request path, the router returns the contents of
`index.html` under the document root with status 200 when the path is one
of `/`, `/index.html`, `/index`, and for every other path it returns the
contents of `404.html` under the document root with status 404, provided
the named files exist and are readable. -/
theorem c1_router_alias_table (fs : FS) (root path idx nf : String)
    (hidx : fs (pathJoin root "index.html") = some idx)
    (hnf : fs (pathJoin root "404.html") = some nf) :
    (path = "/" ∨ path = "/index.html" ∨ path = "/index" →
      router fs root path = some (idx, 200)) ∧
    (¬(path = "/" ∨ path = "/index.html" ∨ path = "/index") →
      router fs root path = some (nf, 404)) := by
  constructor
  · rintro (rfl | rfl | rfl) <;>
      simp [router, routerDict, List.lookup, hidx]
  · intro h
    push_neg at h
    obtain ⟨h1, h2, h3⟩ := h
    have e1 : (path == "/") = false := by simp [h1]
    have e2 : (path == "/index.html") = false := by simp [h2]
    have e3 : (path == "/index") = false := by simp [h3]
    simp [router, routerDict, List.lookup, e1, e2, e3, hnf]

/-- Witness for C1 at the concrete filesystem `fsMain`, once for an alias
path and once for an unmapped path. -/
theorem c1_router_alias_table_witness :
    router fsMain "/html" "/" = some ("<h1>Hi</h1>", 200) ∧
    router fsMain "/html" "/missing.txt" = some ("nf", 404) :=
  ⟨(c1_router_alias_table fsMain "/html" "/" "<h1>Hi</h1>" "nf"
      (by decide) (by decide)).1 (Or.inl rfl),
   (c1_router_alias_table fsMain "/html" "/missing.txt" "<h1>Hi</h1>" "nf"
      (by decide) (by decide)).2 (by decide)⟩

/-- C2 counterexample: the first non-empty line `GET  / HTTP/1.1` (two
spaces after GET) consists of exactly three whitespace-separated tokens,
yet parsing does not yield those tokens — it raises, because the code
splits on the single space character and gets four pieces. -/
theorem c2_counterexample :
    pyLines "GET  / HTTP/1.1\n" = ["GET  / HTTP/1.1"] ∧
    wsTokens "GET  / HTTP/1.1" = ["GET", "/", "HTTP/1.1"] ∧
    parseRequest "GET  / HTTP/1.1\n" = .error .badRequestLine := by
  decide

/-- C2 amended: when the first non-empty line splits on the single space
character (not arbitrary whitespace) into exactly three fields and every
remaining line is a well-formed header line, parsing yields method, path
and http_version equal to those three fields; when the single-space split
of the first non-empty line does not have exactly three fields, parsing
fails with a fatal error for that connection. -/
theorem c2_request_line_single_space_split (raw first : String)
    (rest : List String) (hl : pyLines raw = first :: rest) :
    (∀ m p v hdrs, pySplitChar ' ' first = [m, p, v] →
      rest.mapM parseHeaderLine = some hdrs →
      parseRequest raw = .ok ⟨m, p, v, hdrs⟩) ∧
    ((pySplitChar ' ' first).length ≠ 3 →
      parseRequest raw = .error .badRequestLine) := by
  constructor
  · intro m p v hdrs hsplit hh
    simp only [parseRequest, hl, hsplit]
    rw [hh]
  · intro hlen
    rcases hs : pySplitChar ' ' first with _ | ⟨a, _ | ⟨b, _ | ⟨c, _ | ⟨d, t⟩⟩⟩⟩
    · simp [parseRequest, hl, hs]
    · simp [parseRequest, hl, hs]
    · simp [parseRequest, hl, hs]
    · rw [hs] at hlen
      simp at hlen
    · simp [parseRequest, hl, hs]

/-- Witness for C2 amended: a well-formed request parses to its fields,
and a two-field request line is rejected. -/
theorem c2_request_line_single_space_split_witness :
    parseRequest "GET / HTTP/1.1\nHost: h\n" =
      .ok ⟨"GET", "/", "HTTP/1.1", [("Host", "h")]⟩ ∧
    parseRequest "GET /\n" = .error .badRequestLine :=
  ⟨(c2_request_line_single_space_split "GET / HTTP/1.1\nHost: h\n"
      "GET / HTTP/1.1" ["Host: h"] (by decide)).1
      "GET" "/" "HTTP/1.1" [("Host", "h")] (by decide) (by decide),
   (c2_request_line_single_space_split "GET /\n" "GET /" [] (by decide)).2
      (by decide)⟩

/-- C3 counterexample: the header line `user-agent: Moz` is stored under
the verbatim key `user-agent`, not the normalized `User-Agent`, so the
lookup by the normalized field name fails (KeyError) even though the
header is present. -/
theorem c3_counterexample :
    parseRequest "GET / HTTP/1.1\nuser-agent: Moz\n" =
      .ok ⟨"GET", "/", "HTTP/1.1", [("user-agent", "Moz")]⟩ ∧
    getattrBR ⟨"GET", "/", "HTTP/1.1", [("user-agent", "Moz")]⟩ "user_agent" =
      .error (.keyError "User-Agent") := by
  decide

/-- C3 amended: header names are stored verbatim, and normalization is
applied to the ATTRIBUTE name at lookup time (underscore components
capitalized and joined with dashes), so a lookup succeeds exactly when
some stored header name equals the normalized attribute name — i.e. only
for incoming headers already cased as `User-Agent`, not for every
casing. -/
theorem c3_lookup_normalizes_attribute_only (raw : String)
    (req : BrowserRequest) (name k v : String)
    (_hparse : parseRequest raw = .ok req)
    (hstore : dictLookup req.info k = some v) :
    (normalizeAttr name = k → getattrBR req name = .ok v) ∧
    (dictLookup req.info (normalizeAttr name) = none →
      getattrBR req name = .error (.keyError (normalizeAttr name))) := by
  constructor
  · intro hn
    simp [getattrBR, hn, hstore]
  · intro hn
    simp [getattrBR, hn]

/-- Witness for C3 amended: a header sent as `User-Agent: Moz` is
retrievable through the `user_agent` attribute. -/
theorem c3_lookup_normalizes_attribute_only_witness :
    getattrBR ⟨"GET", "/", "HTTP/1.1", [("User-Agent", "Moz")]⟩ "user_agent" =
      .ok "Moz" :=
  (c3_lookup_normalizes_attribute_only "GET / HTTP/1.1\nUser-Agent: Moz\n"
      ⟨"GET", "/", "HTTP/1.1", [("User-Agent", "Moz")]⟩
      "user_agent" "User-Agent" "Moz" (by decide) (by decide)).1 (by decide)

/-- C4: accessing a header absent from the header map is meant to raise
AttributeError, but the guard `except IndexError` in `__getattr__` never
matches the KeyError raised by the dict lookup, so the raw KeyError
escapes instead — here evaluated at a parsed request with no `User-Agent`
header. -/
theorem c4_missing_header_raises_keyerror :
    parseRequest "GET / HTTP/1.1\nHost: h\n" =
      .ok ⟨"GET", "/", "HTTP/1.1", [("Host", "h")]⟩ ∧
    getattrBR ⟨"GET", "/", "HTTP/1.1", [("Host", "h")]⟩ "user_agent" =
      .error (.keyError "User-Agent") := by
  decide

/-- C5 counterexample: `/root/docs` is a directory (reading it raises, so
the filesystem map is `none` there) whose `index.html` exists with body
`ok`, yet the router answers with the `404.html` body and status 404 — it
never retries `<path>/index.html`. -/
theorem c5_counterexample :
    fsDocs "/root/docs" = none ∧
    fsDocs (pathJoin (pathJoin "/root" "docs") "index.html") = some "ok" ∧
    router fsDocs "/root" "/docs" = some ("nf", 404) := by
  decide

/-- C5 amended: the router consults only the fixed alias table; for every
path outside `/`, `/index.html`, `/index` it returns the `404.html` body
with status 404 regardless of the filesystem — in particular, there is no
directory-index fallback before declaring 404. -/
theorem c5_no_directory_fallback (fs : FS) (root path nf : String)
    (h1 : path ≠ "/") (h2 : path ≠ "/index.html") (h3 : path ≠ "/index")
    (hnf : fs (pathJoin root "404.html") = some nf) :
    router fs root path = some (nf, 404) := by
  have e1 : (path == "/") = false := by simp [h1]
  have e2 : (path == "/index.html") = false := by simp [h2]
  have e3 : (path == "/index") = false := by simp [h3]
  simp [router, routerDict, List.lookup, e1, e2, e3, hnf]

/-- Witness for C5 amended at the directory filesystem `fsDocs`. -/
theorem c5_no_directory_fallback_witness :
    router fsDocs "/root" "/docs" = some ("nf", 404) :=
  c5_no_directory_fallback fsDocs "/root" "/docs" "nf"
    (by decide) (by decide) (by decide) (by decide)

/-- C6 counterexample: the run `["GET /\n", wellFormed]` sends no bytes
and stops with the parse error — the second connection is never served —
while the well-formed request alone is served; so a parse failure is fatal
for the whole accept loop, not only for the current connection. -/
theorem c6_counterexample :
    runServer fsMain "/html" ["GET /\n", "GET / HTTP/1.1\nUser-Agent: M\n"] =
      ([], some (.parse .badRequestLine)) ∧
    runServer fsMain "/html" ["GET / HTTP/1.1\nUser-Agent: M\n"] =
      (["HTTP/1.1 200 Ok\nContent-Type: text/html;charset=UTF-8\nServer: MyServer\n\n<h1>Hi</h1>"],
        none) := by
  decide

/-- C6 amended: when parsing a connection's bytes fails, no response bytes
are sent on that connection, but the exception propagates out of the
unprotected `while True` loop: the server stops and no subsequent
connection is accepted (and nothing closes the accepted connection before
the process unwinds). -/
theorem c6_parse_failure_stops_loop (fs : FS) (root c : String)
    (rest : List String) (e : ParseErr)
    (hp : parseRequest c = .error e) :
    runServer fs root (c :: rest) = ([], some (.parse e)) := by
  simp [runServer, new_client_request, hp]

/-- Witness for C6 amended: the malformed `GET /\n` halts the loop before
a pending well-formed connection. -/
theorem c6_parse_failure_stops_loop_witness :
    runServer fsMain "/html" ["GET /\n", "GET / HTTP/1.1\nUser-Agent: M\n"] =
      ([], some (.parse .badRequestLine)) :=
  c6_parse_failure_stops_loop fsMain "/html" "GET /\n"
    ["GET / HTTP/1.1\nUser-Agent: M\n"] .badRequestLine (by decide)

/-- C7 counterexample: with the socket open and a connection accepted, a
failing send leaves `respond` through the exception with the connection
still open — the close on the next line is never reached, so the
connection is NOT closed unconditionally. -/
theorem c7_counterexample :
    respond false ⟨true, true⟩ = .sendError ⟨true, true⟩ ∧
    (SockSt.mk true true).connOpen = true := by
  decide

/-- C7 amended: after `respond` is entered with an open socket and an
accepted connection, the connection is closed when the send succeeds, but
when the send fails the exception propagates before the `close()` line
and the connection remains open. -/
theorem c7_close_only_after_successful_send (st : SockSt)
    (hs : st.socketOpen = true) (hc : st.connOpen = true) :
    respond true st = .sent ⟨true, false⟩ ∧
    respond false st = .sendError st := by
  simp [respond, hs, hc]

/-- Witness for C7 amended at the fully open socket state. -/
theorem c7_close_only_after_successful_send_witness :
    respond true ⟨true, true⟩ = .sent ⟨true, false⟩ ∧
    respond false ⟨true, true⟩ = .sendError ⟨true, true⟩ :=
  c7_close_only_after_successful_send ⟨true, true⟩ rfl rfl

/-- C8: response serialization is a function of status code and body, so
two runs with the same inputs produce identical bytes, and the bytes are
exactly the status line (with reason from the fixed table), the fixed
Content-Type line, the Server line, a blank line, and the body, in that
order; every status code outside the table is a lookup error. -/
theorem c8_serialization_fixed_order (body : String) :
    serializeResponse 200 body =
      some ("HTTP/1.1 200 Ok" ++ "\n" ++
        "Content-Type: text/html;charset=UTF-8" ++ "\n" ++
        "Server: MyServer" ++ "\n\n" ++ body) ∧
    serializeResponse 404 body =
      some ("HTTP/1.1 404 File not found" ++ "\n" ++
        "Content-Type: text/html;charset=UTF-8" ++ "\n" ++
        "Server: MyServer" ++ "\n\n" ++ body) ∧
    (∀ code : Nat, code ≠ 200 → code ≠ 404 →
      serializeResponse code body = none) := by
  refine ⟨rfl, rfl, ?_⟩
  intro code h200 h404
  have e1 : (code == 200) = false := by simp [h200]
  have e2 : (code == 404) = false := by simp [h404]
  simp [serializeResponse, get_header, STATUSES, List.lookup, e1, e2]

/-- Witness for C8 at body `x` and the out-of-table status 500. -/
theorem c8_serialization_fixed_order_witness :
    serializeResponse 500 "x" = none ∧
    serializeResponse 200 "x" =
      some ("HTTP/1.1 200 Ok" ++ "\n" ++
        "Content-Type: text/html;charset=UTF-8" ++ "\n" ++
        "Server: MyServer" ++ "\n\n" ++ "x") :=
  ⟨(c8_serialization_fixed_order "x").2.2 500 (by decide) (by decide),
   (c8_serialization_fixed_order "x").1⟩

/-- C9: when binding fails on a socket that was closed before `open` was
called, `open` runs `self.close()` — releasing the socket and resetting it
to `None` — and then re-raises, leaving the `LocaleSocket` in exactly the
state it had before `open`. -/
theorem c9_bind_failure_releases_socket (st : SockSt)
    (hs : st.socketOpen = false) (hc : st.connOpen = false) :
    openSock false st = .bindError st := by
  have h : st = ⟨false, false⟩ := by
    cases st
    simp_all
  subst h
  decide

/-- Witness for C9 at the freshly constructed (closed) socket state. -/
theorem c9_bind_failure_releases_socket_witness :
    openSock false ⟨false, false⟩ = .bindError ⟨false, false⟩ :=
  c9_bind_failure_releases_socket ⟨false, false⟩ rfl rfl

/-- C10: handling a request completes without error only if the parsed
header dict has a key that is exactly `User-Agent`: after the response has
been sent and the connection closed, the logging line reads
`cli_request.user_agent`, so a request stored without that exact key makes
the handler raise post-response. -/
theorem c10_user_agent_required_post_response (fs : FS) (root raw : String)
    (req : BrowserRequest) (body : String) (status : Nat) (hdr : String)
    (hparse : parseRequest raw = .ok req)
    (hroute : router fs root req.path = some (body, status))
    (hhdr : get_header status = some hdr) :
    (dictLookup req.info "User-Agent" = none →
      new_client_request fs root raw =
        .failAfterSend (hdr ++ body) (.attr (.keyError "User-Agent"))) ∧
    (∀ s, new_client_request fs root raw = .ok s →
      ∃ v, dictLookup req.info "User-Agent" = some v) := by
  have hfail : dictLookup req.info "User-Agent" = none →
      new_client_request fs root raw =
        .failAfterSend (hdr ++ body) (.attr (.keyError "User-Agent")) := by
    intro hua
    simp [new_client_request, hparse, hroute, hhdr, getattrBR,
      normalizeAttr_user_agent, hua]
  refine ⟨hfail, ?_⟩
  intro s hok
  rcases h : dictLookup req.info "User-Agent" with _ | v
  · rw [hfail h] at hok
    exact HandleResult.noConfusion hok
  · exact ⟨v, rfl⟩

/-- Witness for C10: a request whose only header is `Host` is answered in
full, then the handler fails on the `user_agent` logging access. -/
theorem c10_user_agent_required_post_response_witness :
    new_client_request fsMain "/html" "GET / HTTP/1.1\nHost: h\n" =
      .failAfterSend
        ("HTTP/1.1 200 Ok\nContent-Type: text/html;charset=UTF-8\nServer: MyServer\n\n"
          ++ "<h1>Hi</h1>")
        (.attr (.keyError "User-Agent")) :=
  (c10_user_agent_required_post_response fsMain "/html"
      "GET / HTTP/1.1\nHost: h\n"
      ⟨"GET", "/", "HTTP/1.1", [("Host", "h")]⟩ "<h1>Hi</h1>" 200
      "HTTP/1.1 200 Ok\nContent-Type: text/html;charset=UTF-8\nServer: MyServer\n\n"
      (by decide) (by decide) (by decide)).1 (by decide)

end Server
